import Mathlib

/-!
Verification of `amazon-orders` (`amazonorders/session.py`).

This file gives a shallow embedding of the session/authentication layer of the
repository and proves the frozen claims about it.  Python dictionaries are
modelled as association lists of strings with Python's assignment semantics
(`setKey`/`pyDictUpdate`), the cookie jar as such a list, the HTTP exchange as
a stream of canned pages (`Nat → Page`), and `AmazonSession.login`'s loop as a
fuel-indexed recursion where the fuel is the remaining attempt budget.
`str.format` is modelled by `pyFormat`, which returns `none` when the template
has more placeholders than arguments (Python raises `IndexError` there).
-/

namespace AmazonOrders

/-- Lookup in a Python dict modelled as an association list (first binding
wins; all dicts built by `pyDictUpdate` have unique keys). -/
def dlookup (k : String) : List (String × String) → Option String
  | [] => none
  | p :: ps => if p.1 = k then some p.2 else dlookup k ps

/-- Python dict assignment `d[k] = v`: replace the binding in place when the
key is present, otherwise append it. -/
def setKey (d : List (String × String)) (k v : String) : List (String × String) :=
  if (dlookup k d).isSome then
    d.map (fun p => if p.1 = k then (k, v) else p)
  else
    d ++ [(k, v)]

/-- Python `d.update(other)`: assign every binding of `other` into `d`, in
order (later bindings of the same key overwrite earlier ones). -/
def pyDictUpdate (d : List (String × String)) : List (String × String) → List (String × String)
  | [] => d
  | p :: ps => pyDictUpdate (setKey d p.1 p.2) ps

/-- `requests.utils.dict_from_cookiejar`: iterate the jar, assigning each
cookie into a fresh dict (so for a repeated name the last binding wins). -/
def dictFromJar (jar : List (String × String)) : List (String × String) :=
  pyDictUpdate [] jar

/-- The last binding of a key in a list, `none` when the key is absent. -/
def lastLookup (k : String) : List (String × String) → Option String
  | [] => none
  | p :: ps =>
    match lastLookup k ps with
    | some v => some v
    | none => if p.1 = k then some p.2 else none

/-- The keys of a dict. -/
def dkeys (d : List (String × String)) : List String := d.map Prod.fst

theorem dlookup_eq_none_iff (k : String) (d : List (String × String)) :
    dlookup k d = none ↔ k ∉ dkeys d := by
  induction d with
  | nil => simp [dlookup, dkeys]
  | cons p ps ih =>
    by_cases h : p.1 = k
    · subst h
      simp [dlookup, dkeys]
    · have hne : ¬k = p.1 := fun hh => h hh.symm
      simp only [dlookup, h, if_false, dkeys, List.map_cons, List.mem_cons]
      rw [ih]
      constructor
      · intro hk hor
        cases hor with
        | inl h1 => exact hne h1
        | inr h2 => exact hk h2
      · intro hk hmem
        exact hk (Or.inr hmem)

theorem lastLookup_eq_none_of_not_mem (k : String) (d : List (String × String))
    (h : k ∉ dkeys d) : lastLookup k d = none := by
  induction d with
  | nil => rfl
  | cons p ps ih =>
    simp only [dkeys, List.map_cons, List.mem_cons] at h
    push_neg at h
    simp [lastLookup, ih h.2, h.1.symm]

theorem dlookup_map_replace_self (k v : String) (d : List (String × String))
    (h : (dlookup k d).isSome) :
    dlookup k (d.map (fun p => if p.1 = k then (k, v) else p)) = some v := by
  induction d with
  | nil => simp [dlookup] at h
  | cons p ps ih =>
    by_cases hp : p.1 = k
    · simp [dlookup, hp]
    · simp only [dlookup, hp, if_false] at h
      simp [dlookup, hp, ih h]

theorem dlookup_map_replace_other (k v k' : String) (h : k' ≠ k)
    (d : List (String × String)) :
    dlookup k' (d.map (fun p => if p.1 = k then (k, v) else p)) = dlookup k' d := by
  induction d with
  | nil => rfl
  | cons p ps ih =>
    by_cases hp : p.1 = k
    · have hpk' : ¬p.1 = k' := fun hh => h (hh ▸ hp ▸ rfl)
      have : ¬k = k' := fun hh => h hh.symm
      simp [dlookup, hp, this, hpk', ih]
    · by_cases hp' : p.1 = k'
      · simp [dlookup, hp, hp', h]
      · simp [dlookup, hp, hp', ih]

theorem dlookup_append_single (k v k' : String) (d : List (String × String)) :
    dlookup k' (d ++ [(k, v)]) =
      match dlookup k' d with
      | some w => some w
      | none => if k = k' then some v else none := by
  induction d with
  | nil => simp [dlookup]
  | cons p ps ih =>
    by_cases hp : p.1 = k'
    · simp [dlookup, List.cons_append, hp]
    · simp [dlookup, List.cons_append, hp, ih]

theorem dlookup_setKey_self (d : List (String × String)) (k v : String) :
    dlookup k (setKey d k v) = some v := by
  unfold setKey
  split
  · exact dlookup_map_replace_self k v d (by assumption)
  · rename_i hfalse
    have hnone : dlookup k d = none := by
      cases hc : dlookup k d with
      | none => rfl
      | some w => exact absurd (by simp [hc]) hfalse
    rw [dlookup_append_single]
    simp [hnone]

theorem dlookup_setKey_other (d : List (String × String)) (k v k' : String)
    (h : k' ≠ k) : dlookup k' (setKey d k v) = dlookup k' d := by
  unfold setKey
  split
  · exact dlookup_map_replace_other k v k' h d
  · rw [dlookup_append_single]
    have hne : ¬k = k' := fun hh => h hh.symm
    cases hc : dlookup k' d <;> simp [hne]

theorem dlookup_pyDictUpdate (other d : List (String × String)) (k : String) :
    dlookup k (pyDictUpdate d other) =
      match lastLookup k other with
      | some v => some v
      | none => dlookup k d := by
  induction other generalizing d with
  | nil => rfl
  | cons p ps ih =>
    show dlookup k (pyDictUpdate (setKey d p.1 p.2) ps) = _
    rw [ih]
    by_cases hl : ∃ v, lastLookup k ps = some v
    · obtain ⟨v, hv⟩ := hl
      simp [lastLookup, hv]
    · push_neg at hl
      have hnone : lastLookup k ps = none := by
        cases hcase : lastLookup k ps with
        | none => rfl
        | some v => exact absurd hcase (hl v)
      by_cases hp : p.1 = k
      · subst hp
        simp [lastLookup, hnone, dlookup_setKey_self]
      · simp [lastLookup, hnone, hp, dlookup_setKey_other d p.1 p.2 k fun hh => hp hh.symm]

theorem dlookup_dictFromJar (jar : List (String × String)) (k : String) :
    dlookup k (dictFromJar jar) = lastLookup k jar := by
  rw [dictFromJar, dlookup_pyDictUpdate]
  cases lastLookup k jar <;> rfl

theorem dkeys_setKey (d : List (String × String)) (k v : String) :
    dkeys (setKey d k v) = if (dlookup k d).isSome then dkeys d else dkeys d ++ [k] := by
  unfold setKey
  by_cases hs : (dlookup k d).isSome
  · simp only [hs, if_true, dkeys, List.map_map]
    congr 1
    funext p
    by_cases hp : p.1 = k <;> simp [hp]
  · simp [hs, dkeys]

theorem nodup_dkeys_setKey (d : List (String × String)) (k v : String)
    (h : (dkeys d).Nodup) : (dkeys (setKey d k v)).Nodup := by
  rw [dkeys_setKey]
  by_cases hs : (dlookup k d).isSome
  · simpa [hs] using h
  · have hnotmem : k ∉ dkeys d := by
      rw [← dlookup_eq_none_iff]
      cases hcase : dlookup k d with
      | none => rfl
      | some v' => simp [hcase] at hs
    simp only [hs, if_false]
    simp [List.nodup_append, h, hnotmem]

theorem nodup_dkeys_pyDictUpdate (other d : List (String × String))
    (h : (dkeys d).Nodup) : (dkeys (pyDictUpdate d other)).Nodup := by
  induction other generalizing d with
  | nil => exact h
  | cons p ps ih => exact ih _ (nodup_dkeys_setKey d p.1 p.2 h)

theorem nodup_dkeys_dictFromJar (jar : List (String × String)) :
    (dkeys (dictFromJar jar)).Nodup :=
  nodup_dkeys_pyDictUpdate jar [] List.nodup_nil

theorem lastLookup_eq_dlookup_of_nodup (d : List (String × String))
    (h : (dkeys d).Nodup) (k : String) : lastLookup k d = dlookup k d := by
  induction d with
  | nil => rfl
  | cons p ps ih =>
    simp only [dkeys, List.map_cons, List.nodup_cons] at h
    by_cases hp : p.1 = k
    · subst hp
      have : lastLookup p.1 ps = none :=
        lastLookup_eq_none_of_not_mem p.1 ps h.1
      simp [lastLookup, dlookup, this]
    · simp only [lastLookup, dlookup, hp, if_false]
      rw [ih h.2]
      cases dlookup k ps <;> simp

theorem dlookup_dictFromJar_idem (jar : List (String × String)) (k : String) :
    dlookup k (dictFromJar (dictFromJar jar)) = dlookup k (dictFromJar jar) := by
  rw [dlookup_dictFromJar,
    lastLookup_eq_dlookup_of_nodup (dictFromJar jar) (nodup_dkeys_dictFromJar jar)]

/-- Python truthiness of `dict.get`: `none` (missing key) and the empty string
are falsy, every other string is truthy. -/
def truthy : Option String → Bool
  | none => false
  | some s => if s = "" then false else true

/-- `AmazonSession.auth_cookies_stored`:
`cookies = dict_from_cookiejar(self.session.cookies)` then the truthiness of
`cookies.get("session-token") and cookies.get("x-main")`. -/
def auth_cookies_stored (jar : List (String × String)) : Bool :=
  truthy (dlookup "session-token" (dictFromJar jar)) &&
    truthy (dlookup "x-main" (dictFromJar jar))

/-- Modelled from the spec: `constants.BASE_HEADERS` (the `constants` module is
not part of the sources). The spec calls it "a fixed base header set" carried
on every outbound request; it is represented here by a nonempty header dict
with a `User-Agent` entry. -/
def BASE_HEADERS : List (String × String) :=
  [("User-Agent",
    "Mozilla/5.0 (Macintosh; Intel Mac OS X 10_15_7) AppleWebKit/537.36 (KHTML, like Gecko) Chrome/115.0.0.0 Safari/537.36"),
   ("Accept", "text/html,application/xhtml+xml,application/xml;q=0.9,*/*;q=0.8"),
   ("Accept-Language", "en-US,en;q=0.9")]

/-- The header dict carried by `AmazonSession.request`: the source initialises
`kwargs["headers"]` to `{}` when absent and then runs
`kwargs["headers"].update(constants.BASE_HEADERS)`, i.e. the base headers are
assigned **onto** the caller-supplied dict. -/
def requestHeaders (caller : List (String × String)) : List (String × String) :=
  pyDictUpdate caller BASE_HEADERS

/-- The cookie dict `AmazonSession.request` persists to the cookie-jar file
after every request: `dict_from_cookiejar(self.session.cookies)`, written with
delete-then-write overwrite semantics. -/
def persistedCookies (jar : List (String × String)) : List (String × String) :=
  dictFromJar jar

/-- The cookie jar of a freshly constructed `AmazonSession`: `Session()`
starts with an empty jar, and when the cookie-jar file exists its JSON dict is
loaded via `cookiejar_from_dict` and assigned into the jar with
`self.session.cookies.update(cookies)`. -/
def initSessionJar (file : Option (List (String × String))) : List (String × String) :=
  match file with
  | none => []
  | some data => pyDictUpdate [] data

/-- Does the character list start with the given needle? -/
def listStartsWith : List Char → List Char → Bool
  | _, [] => true
  | [], _ :: _ => false
  | h :: t, n :: ns => h = n && listStartsWith t ns

/-- Python's `needle in hay` substring test, on character lists. -/
def containsList (needle : List Char) : List Char → Bool
  | [] => listStartsWith [] needle
  | c :: t => listStartsWith (c :: t) needle || containsList needle t

/-- Python's `needle in hay` substring test on strings. -/
def containsSub (hay needle : String) : Bool :=
  containsList needle.data hay.data

/-- The prefix of a character list before the first occurrence of `c`. -/
def takeUntilChar (c : Char) : List Char → List Char
  | [] => []
  | h :: t => if h = c then [] else h :: takeUntilChar c t

/-- Python's `s.split(sep)[0]` for a one-character separator: the prefix of
`s` before the first occurrence of `c` (all of `s` when `c` is absent). -/
def beforeChar (s : String) (c : Char) : String :=
  String.mk (takeUntilChar c s.data)

/-- Membership of a character in a character set given as a list. -/
def charIn (cs : List Char) (c : Char) : Bool := cs.contains c

/-- Python's `s.strip(chars)`: remove the longest run of characters drawn from
the set `chars` from **both ends** of `s` (a character-set operation, not the
removal of the literal substring `chars`). -/
def pyStrip (s chars : String) : String :=
  String.mk
    (((s.data.dropWhile (charIn chars.data)).reverse.dropWhile (charIn chars.data)).reverse)

/-- `os.path.basename`: the part of a path after its last `/`. -/
def basename (p : String) : String :=
  String.mk ((takeUntilChar '/' p.data.reverse).reverse)

/-- The rest of a character list after the first occurrence of the separator,
`none` when the separator does not occur. -/
def dropAfterFirst (sep : List Char) : List Char → Option (List Char)
  | [] => if sep.isEmpty then some [] else none
  | c :: t =>
    if listStartsWith (c :: t) sep then some (List.drop sep.length (c :: t))
    else dropAfterFirst sep t

/-- Models `urllib.parse.urlparse(url).path`: drop the fragment and the query,
and for an absolute URL drop `scheme://netloc`, keeping the leading slash of
the path. -/
def urlPath (url : String) : String :=
  let noFrag := takeUntilChar '#' url.data
  let noQuery := takeUntilChar '?' noFrag
  match dropAfterFirst "://".data noQuery with
  | some rest =>
    match dropAfterFirst "/".data rest with
    | some pathRest => String.mk ('/' :: pathRest)
    | none => ""
  | none => String.mk noQuery

/-- The opening-brace character of a `str.format` placeholder. -/
def lbrace : Char := Char.ofNat 123

/-- The closing-brace character of a `str.format` placeholder. -/
def rbrace : Char := Char.ofNat 125

/-- Scanner for `pyFormat`: copies the template, substituting each empty
placeholder with the next positional argument; `none` models the `IndexError`
Python raises when the template has more placeholders than arguments. -/
def fmtAux : List Char → List String → Option (List Char)
  | [], _ => some []
  | [c], _ => some [c]
  | c1 :: c2 :: t, args =>
    if c1 = lbrace ∧ c2 = rbrace then
      match args with
      | [] => none
      | a :: rest => (fmtAux t rest).map (fun r => a.data ++ r)
    else
      (fmtAux (c2 :: t) args).map (fun r => c1 :: r)

/-- Python's `template.format(*args)` for templates whose only brace
characters are empty `\x7b\x7d` placeholders: substitutes the arguments
positionally and returns `none` (an `IndexError`) when there are more
placeholders than arguments; surplus arguments are ignored. -/
def pyFormat (template : String) (args : List String) : Option String :=
  (fmtAux template.data args).map String.mk

example : pyFormat "a\x7b\x7db\x7b\x7dc" ["X", "Y"] = some "aXbYc" := by rfl

example : pyFormat "a\x7b\x7db\x7b\x7d" ["X"] = none := by rfl

example : containsSub "hello nav-item-signout page" "nav-item-signout" = true := by rfl

example : beforeChar "https://x.com/ap/signin?foo=1" '?' = "https://x.com/ap/signin" := by rfl

example : pyStrip "math.html" ".html" = "a" := by rfl

example : basename (urlPath "https://www.amazon.com/gp/math.html?q=1") = "math.html" := by rfl

/-- Modelled from the spec: `constants.SIGN_IN_URL`, the fixed sign-in entry
point (the `constants` module is not part of the sources). -/
def SIGN_IN_URL : String := "https://www.amazon.com/gp/sign-in.html"

/-- Modelled from the spec: `constants.SIGN_OUT_URL`, the fixed sign-out
endpoint. -/
def SIGN_OUT_URL : String := "https://www.amazon.com/gp/sign-out.html"

/-- Modelled from the spec: `constants.SIGN_IN_REDIRECT_URL`, the sign-in page
URL a stale session is redirected back to. -/
def SIGN_IN_REDIRECT_URL : String := "https://www.amazon.com/ap/signin"

/-- An HTTP response as `AmazonSession` observes it: the final URL, the body
text, the status code, and the contents of the session cookie jar once the
response has been applied to it (the server drives cookie evolution). -/
structure Page where
  url : String
  text : String
  status_code : Nat
  jar : List (String × String)
deriving DecidableEq

/-- `requests.Response.ok`: `raise_for_status` raises exactly for status codes
in `[400, 600)`, so `ok` is their complement. -/
def Page.ok (p : Page) : Bool :=
  if 400 ≤ p.status_code ∧ p.status_code < 600 then false else true

/-- Observable side effects of the session, recorded in order. -/
inductive Event
  | httpRequest (method url : String)
  | formSubmit
  | rmCookieFile
  | replaceSession
  | clearAuthFlag
deriving DecidableEq

/-- The mutable state of an `AmazonSession`: the `is_authenticated` flag, the
in-memory cookie jar, the persisted cookie-jar file (`none` when absent), the
last response, a trace of side effects, and how many HTTP exchanges have
happened (used to index the canned server stream). `last_response` is `None`
in Python until the first request; `login` always fetches before reading it,
so the initial placeholder page is never observed. -/
structure SessionState where
  is_authenticated : Bool
  jar : List (String × String)
  cookieFile : Option (List (String × String))
  lastResponse : Page
  trace : List Event
  reqCount : Nat
deriving DecidableEq

/-- `AmazonSession.request` (header handling modelled by `requestHeaders`, the
debug capture by `get_page_from_url`): execute the exchange, replace
`last_response` (and its parsed form), set the jar to the post-response cookie
state, and persist the cookie dict with delete-then-write overwrite
semantics. The canned server `env` supplies the response for each exchange. -/
def request (env : Nat → Page) (method url : String) (s : SessionState) : SessionState :=
  let p := env s.reqCount
  { is_authenticated := s.is_authenticated
    jar := p.jar
    cookieFile := some (persistedCookies p.jar)
    lastResponse := p
    trace := s.trace ++ [Event.httpRequest method url]
    reqCount := s.reqCount + 1 }

/-- `AmazonSession.get`: a thin wrapper over `request`. -/
def get (env : Nat → Page) (url : String) (s : SessionState) : SessionState :=
  request env "GET" url s

/-- Modelled from the spec: a matched step handler's `fill_form` + `submit`
(the `forms` module is not part of the sources). Per the spec a handler
resolves its step by issuing the next outbound request through the HTTP
wrapper, so its effect on the session is one further exchange. -/
def formSubmit (env : Nat → Page) (s : SessionState) : SessionState :=
  let p := env s.reqCount
  { is_authenticated := s.is_authenticated
    jar := p.jar
    cookieFile := some (persistedCookies p.jar)
    lastResponse := p
    trace := s.trace ++ [Event.formSubmit]
    reqCount := s.reqCount + 1 }

/-- `AmazonSession.logout`: GET the sign-out endpoint, remove the cookie-jar
file if it exists, close and replace the transport session (emptying the
in-memory jar), and reset `is_authenticated`. -/
def logout (env : Nat → Page) (s : SessionState) : SessionState :=
  let s1 := get env SIGN_OUT_URL s
  let s2 :=
    if s1.cookieFile.isSome then
      { s1 with cookieFile := none, trace := s1.trace ++ [Event.rmCookieFile] }
    else s1
  let s3 := { s2 with jar := [], trace := s2.trace ++ [Event.replaceSession] }
  { s3 with is_authenticated := false, trace := s3.trace ++ [Event.clearAuthFlag] }

/-- The stale-local-session test at the top of `login`:
`self.auth_cookies_stored() and self.last_response.url.split("?")[0] == constants.SIGN_IN_REDIRECT_URL`. -/
def staleSessionCond (s : SessionState) : Bool :=
  auth_cookies_stored s.jar &&
    decide (beforeChar s.lastResponse.url '?' = SIGN_IN_REDIRECT_URL)

/-- The in-loop authenticated test of `login`:
`"Hello, sign in" not in text and "nav-item-signout" in text`. -/
def authenticatedMarkers (p : Page) : Bool :=
  !containsSub p.text "Hello, sign in" && containsSub p.text "nav-item-signout"

/-- The result of a `login` call: a normal return, an `AmazonOrdersAuthError`
with its message, or the `IndexError` that `str.format` raises while a message
is being built. -/
inductive LoginResult
  | success
  | authError (msg : String)
  | formatIndexError
deriving DecidableEq

/-- The hint appended to classification messages:
`" To capture the page to a file, set the `debug` flag." if not self.debug else ""`. -/
def debugHint (debug : Bool) : String :=
  if debug then "" else " To capture the page to a file, set the \x60debug\x60 flag."

/-- Template of the unknown-page error (HTTP success, no handler matched). -/
def UNKNOWN_PAGE_TEMPLATE : String :=
  "An error occurred, this is an unknown page, or its parsed contents don\x27t match a known auth flow: \x7b\x7d.\x7b\x7d"

/-- Template of the 4xx client error. It contains three placeholders but the
source formats it with only two arguments. -/
def CLIENT_ERROR_TEMPLATE : String :=
  "An error occurred, the page \x7b\x7d returned \x7b\x7d.\x7b\x7d"

/-- Template of the 5xx server error. It contains three placeholders but the
source formats it with only two arguments. -/
def SERVER_ERROR_TEMPLATE : String :=
  "An error occurred, the page \x7b\x7d returned \x7b\x7d, which Amazon had an error (or may be temporarily blocking your requests). Wait a bit before trying again.\x7b\x7d"

/-- The message of the max-attempts error raised after the loop. -/
def MAX_ATTEMPTS_MSG : String := "Max authentication flow attempts reached."

/-- Raising `AmazonOrdersAuthError(template.format(*args))`: when the format
call itself fails, the surfaced exception is the `IndexError`. -/
def raiseFormatted (template : String) (args : List String) : LoginResult :=
  match pyFormat template args with
  | some msg => LoginResult.authError msg
  | none => LoginResult.formatIndexError

/-- The `if not form_found` classification in `login` (`none` models the
fall-through where no branch raises, which `Page.ok` makes unreachable).
The source passes only `url` and `debug_str` to the two status-code
templates. -/
def classifyNoMatch (debug : Bool) (r : Page) : Option LoginResult :=
  if r.ok then
    some (raiseFormatted UNKNOWN_PAGE_TEMPLATE [r.url, debugHint debug])
  else if 400 ≤ r.status_code ∧ r.status_code < 500 then
    some (raiseFormatted CLIENT_ERROR_TEMPLATE [r.url, debugHint debug])
  else if 500 ≤ r.status_code ∧ r.status_code < 600 then
    some (raiseFormatted SERVER_ERROR_TEMPLATE [r.url, debugHint debug])
  else none

/-- The attempt loop of `login`, with the remaining attempt budget
(`max_auth_attempts - attempts`) as fuel. Returns the outcome, the final
state, and the number of iterations that ran `attempts += 1`. Fuel `0` is the
loop exiting with `attempts == self.max_auth_attempts`, where the
max-attempts error is raised; exiting the `while` through its
`not self.is_authenticated` conjunct with budget left returns normally. -/
def loginLoop (env : Nat → Page) (formMatches : Page → Bool) (debug : Bool) :
    Nat → SessionState → LoginResult × SessionState × Nat
  | 0, s => (LoginResult.authError MAX_ATTEMPTS_MSG, s, 0)
  | fuel + 1, s =>
    if s.is_authenticated then (LoginResult.success, s, 0)
    else if auth_cookies_stored s.jar || authenticatedMarkers s.lastResponse then
      (LoginResult.success, { s with is_authenticated := true }, 0)
    else if formMatches s.lastResponse then
      let out := loginLoop env formMatches debug fuel (formSubmit env s)
      (out.1, out.2.1, out.2.2 + 1)
    else
      match classifyNoMatch debug s.lastResponse with
      | some res => (res, s, 0)
      | none =>
        let out := loginLoop env formMatches debug fuel s
        (out.1, out.2.1, out.2.2 + 1)

/-- The part of `login` before the attempt loop: fetch the sign-in entry
point, and on the stale-session condition perform one logout and one
re-fetch. -/
def loginPreLoop (env : Nat → Page) (s : SessionState) : SessionState :=
  let s1 := get env SIGN_IN_URL s
  if staleSessionCond s1 then get env SIGN_IN_URL (logout env s1) else s1

/-- `AmazonSession.login`: the pre-loop phase followed by the attempt loop
with budget `max_auth_attempts`. -/
def login (env : Nat → Page) (formMatches : Page → Bool) (debug : Bool)
    (max_auth_attempts : Nat) (s : SessionState) : LoginResult × SessionState × Nat :=
  loginLoop env formMatches debug max_auth_attempts (loginPreLoop env s)

/-- A placeholder for Python's initial `last_response = None`; `login` fetches
before any read, so this page is never observed. -/
def blankPage : Page :=
  { url := "", text := "", status_code := 0, jar := [] }

/-- The state of a freshly constructed `AmazonSession` with no cookie-jar
file. -/
def initState : SessionState :=
  { is_authenticated := false
    jar := []
    cookieFile := none
    lastResponse := blankPage
    trace := []
    reqCount := 0 }

example :
    (login (fun _ => { url := "u", text := "x", status_code := 404, jar := [] })
      (fun _ => false) false 10 initState).1 = LoginResult.formatIndexError := by rfl

example :
    (login (fun _ => { url := "u", text := "x", status_code := 200, jar := [] })
      (fun _ => true) false 3 initState).2.2 = 3 := by rfl

example :
    (login (fun _ => { url := "u", text := "ok nav-item-signout", status_code := 200, jar := [] })
      (fun _ => false) false 3 initState).1 = LoginResult.success := by rfl

theorem truthy_iff (o : Option String) :
    truthy o = true ↔ ∃ v, o = some v ∧ v ≠ "" := by
  cases o with
  | none => simp [truthy]
  | some s => by_cases h : s = "" <;> simp [truthy, h]

theorem auth_cookies_stored_dictFromJar (jar : List (String × String)) :
    auth_cookies_stored (dictFromJar jar) = auth_cookies_stored jar := by
  unfold auth_cookies_stored
  rw [dlookup_dictFromJar_idem, dlookup_dictFromJar_idem]

/-- C3, counterexample: a caller-supplied `User-Agent` header is **not**
preserved — `kwargs["headers"].update(BASE_HEADERS)` overwrites it with the
base value, even though the key collides with the base header set. -/
theorem claim_C3_counterexample :
    dlookup "User-Agent" (requestHeaders [("User-Agent", "caller-ua")]) ≠ some "caller-ua" ∧
    (dlookup "User-Agent" BASE_HEADERS).isSome = true := by
  exact ⟨by decide, by decide⟩

/-- C3 (amended): for every `request()` call, base headers win on key
collision — the outbound header dict maps every key of the fixed base header
set to the base value, and caller-supplied values are used only for keys the
base set does not contain. -/
theorem claim_C3 :
    (∀ caller k v, dlookup k BASE_HEADERS = some v →
      dlookup k (requestHeaders caller) = some v) ∧
    (∀ caller k, dlookup k BASE_HEADERS = none →
      dlookup k (requestHeaders caller) = dlookup k caller) := by
  have hbase : (dkeys BASE_HEADERS).Nodup := by decide
  constructor
  · intro caller k v h
    rw [requestHeaders, dlookup_pyDictUpdate,
      lastLookup_eq_dlookup_of_nodup BASE_HEADERS hbase, h]
  · intro caller k h
    rw [requestHeaders, dlookup_pyDictUpdate,
      lastLookup_eq_dlookup_of_nodup BASE_HEADERS hbase, h]

/-- Witness for C3 at a concrete colliding and a concrete fresh key. -/
theorem claim_C3_witness :
    dlookup "Accept-Language" (requestHeaders [("Accept-Language", "fr-FR")]) =
      some "en-US,en;q=0.9" ∧
    dlookup "X-Custom" (requestHeaders [("X-Custom", "mine")]) = some "mine" := by
  constructor
  · exact claim_C3.1 [("Accept-Language", "fr-FR")] "Accept-Language" "en-US,en;q=0.9"
      (by decide)
  · rw [claim_C3.2 [("X-Custom", "mine")] "X-Custom" (by decide)]
    decide

/-- C6, counterexample: a jar in which both cookies are present but the
session-token cookie has the empty string as value — both keys are present,
yet `auth_cookies_stored` is falsy (Python truthiness of `dict.get`). -/
theorem claim_C6_counterexample :
    (dlookup "session-token" [("session-token", ""), ("x-main", "v")]).isSome = true ∧
    (dlookup "x-main" [("session-token", ""), ("x-main", "v")]).isSome = true ∧
    auth_cookies_stored [("session-token", ""), ("x-main", "v")] = false := by
  exact ⟨by decide, by decide, by decide⟩

/-- C6 (amended): for every state of the jar, `auth_cookies_stored` is true
iff both the session-token cookie and the x-main cookie are present **with
non-empty values** (their latest bindings); it is a function of the jar alone,
so it is independent of any response body or page state. -/
theorem claim_C6 (jar : List (String × String)) :
    auth_cookies_stored jar = true ↔
      ((∃ v, lastLookup "session-token" jar = some v ∧ v ≠ "") ∧
       (∃ v, lastLookup "x-main" jar = some v ∧ v ≠ "")) := by
  unfold auth_cookies_stored
  rw [Bool.and_eq_true, dlookup_dictFromJar, dlookup_dictFromJar, truthy_iff, truthy_iff]

/-- Witness for C6 on a concrete jar holding both cookies. -/
theorem claim_C6_witness :
    auth_cookies_stored [("session-token", "tok"), ("x-main", "m")] = true :=
  (claim_C6 [("session-token", "tok"), ("x-main", "m")]).mpr
    ⟨⟨"tok", by decide⟩, ⟨"m", by decide⟩⟩

/-- C7 (confirmed): after any `request()` call persists the cookie dict to the
cookie-jar file, a freshly constructed `AmazonSession` loading that file gets
a jar on which `auth_cookies_stored` has the same truth value as on the jar of
the original session after the request. -/
theorem claim_C7 (env : Nat → Page) (method url : String) (s : SessionState)
    (d : List (String × String))
    (h : (request env method url s).cookieFile = some d) :
    auth_cookies_stored (initSessionJar (some d)) =
      auth_cookies_stored (request env method url s).jar := by
  have hd : d = persistedCookies (env s.reqCount).jar := by
    have : some (persistedCookies (env s.reqCount).jar) = some d := h
    exact (Option.some.inj this).symm
  subst hd
  show auth_cookies_stored (pyDictUpdate [] (persistedCookies (env s.reqCount).jar)) = _
  have hjar : (request env method url s).jar = (env s.reqCount).jar := rfl
  rw [hjar]
  show auth_cookies_stored (dictFromJar (dictFromJar (env s.reqCount).jar)) = _
  rw [auth_cookies_stored_dictFromJar, auth_cookies_stored_dictFromJar]

/-- Witness for C7: a concrete request whose response stores both cookies. -/
theorem claim_C7_witness :
    auth_cookies_stored
        (initSessionJar (some [("session-token", "t"), ("x-main", "m")])) =
      auth_cookies_stored
        (request (fun _ =>
            { url := "https://www.amazon.com/gp/css/order-history"
              text := "orders"
              status_code := 200
              jar := [("session-token", "t"), ("x-main", "m")] })
          "GET" "https://www.amazon.com/gp/css/order-history" initState).jar :=
  claim_C7 (fun _ =>
      { url := "https://www.amazon.com/gp/css/order-history"
        text := "orders"
        status_code := 200
        jar := [("session-token", "t"), ("x-main", "m")] })
    "GET" "https://www.amazon.com/gp/css/order-history" initState
    [("session-token", "t"), ("x-main", "m")] (by decide)

/-- The candidate capture filename `"\x7b\x7d_\x7b\x7d.html".format(page_name, i)`. -/
def candidateName (base : String) (i : Nat) : String :=
  base ++ "_" ++ Nat.repr i ++ ".html"

/-- The `page_name` computed by `AmazonSession._get_page_from_url`:
`os.path.basename(urlparse(url).path).strip(".html")` — note `strip` is the
character-set strip, not extension removal. -/
def pageNameOf (url : String) : String :=
  pyStrip (basename (urlPath url)) ".html"

/-- `AmazonSession._get_page_from_url`: probe `os.path.isfile` on the bare
candidate names (hence resolved relative to the process working directory,
modelled by `isfile`) for increasing `i` and return the first free candidate.
The hypothesis that some index is free is what makes the Python `while` loop
terminate (always true on a finite filesystem). -/
def get_page_from_url (isfile : String → Bool) (url : String)
    (h : ∃ i, isfile (candidateName (pageNameOf url) i) = false) : String :=
  candidateName (pageNameOf url) (Nat.find h)

/-- Where `request` writes the capture file when `debug` is set:
`os.path.join(self.output_dir, page_name)`. -/
def debugWritePath (output_dir name : String) : String :=
  output_dir ++ "/" ++ name

/-- C8, counterexample: for the URL path basename `math.html` on an empty
filesystem the code produces `a_0.html` — `strip(".html")` removes the
characters `.`, `h`, `t`, `m`, `l` from both ends of the basename — whereas
the claim's name (basename with its `.html` extension removed, suffix `_0`)
would be `math_0.html`. -/
theorem claim_C8_counterexample :
    get_page_from_url (fun _ => false) "https://www.amazon.com/gp/math.html"
        ⟨0, rfl⟩ = "a_0.html" ∧
    "a_0.html" ≠ "math_0.html" := by
  constructor
  · have h0 : Nat.find (⟨0, rfl⟩ :
        ∃ i, (fun _ : String => false)
          (candidateName (pageNameOf "https://www.amazon.com/gp/math.html") i) = false) = 0 := by
      rw [Nat.find_eq_zero]
    unfold get_page_from_url
    rw [h0]
    rfl
  · decide

/-- C8 (amended): when `debug` is set, the capture file is written into the
output directory under the name `base_n.html`, where `base` is the URL path
basename with every leading and trailing character of the set `.html`
stripped, and `n` is the smallest non-negative integer whose candidate name is
not an existing file **relative to the process working directory** (the probe
uses the bare filename, not the output directory the file is written to). -/
theorem claim_C8 (cwdIsFile : String → Bool) (output_dir url : String)
    (h : ∃ i, cwdIsFile (candidateName (pageNameOf url) i) = false) :
    get_page_from_url cwdIsFile url h =
      candidateName (pyStrip (basename (urlPath url)) ".html") (Nat.find h) ∧
    cwdIsFile (get_page_from_url cwdIsFile url h) = false ∧
    (∀ m, m < Nat.find h → cwdIsFile (candidateName (pageNameOf url) m) = true) ∧
    debugWritePath output_dir (get_page_from_url cwdIsFile url h) =
      output_dir ++ "/" ++ get_page_from_url cwdIsFile url h := by
  refine ⟨rfl, Nat.find_spec h, ?_, rfl⟩
  intro m hm
  have hmin := Nat.find_min h hm
  cases hcb : cwdIsFile (candidateName (pageNameOf url) m) with
  | false => exact absurd hcb hmin
  | true => rfl

/-- The working directory of the C8 witness: `signin_0.html` already exists. -/
def cwdFilesEx : String → Bool := fun s => s == "signin_0.html"

/-- The URL of the C8 witness. -/
def urlEx : String := "https://www.amazon.com/ap/signin.html"

theorem freeIdxExistsEx :
    ∃ i, cwdFilesEx (candidateName (pageNameOf urlEx) i) = false :=
  ⟨1, by decide⟩

/-- Witness for C8: with `signin_0.html` taken in the working directory the
code picks `signin_1.html`. -/
theorem claim_C8_witness :
    cwdFilesEx (get_page_from_url cwdFilesEx urlEx freeIdxExistsEx) = false ∧
    get_page_from_url cwdFilesEx urlEx freeIdxExistsEx = "signin_1.html" := by
  have hfind : Nat.find freeIdxExistsEx = 1 :=
    (Nat.find_eq_iff freeIdxExistsEx).mpr (by decide)
  refine ⟨(claim_C8 cwdFilesEx "output" urlEx freeIdxExistsEx).2.1, ?_⟩
  rw [(claim_C8 cwdFilesEx "output" urlEx freeIdxExistsEx).1, hfind]
  rfl

/-- The number of placeholders in a template, mirroring `fmtAux`'s scan. -/
def phCount : List Char → Nat
  | [] => 0
  | [_] => 0
  | c1 :: c2 :: t => if c1 = lbrace ∧ c2 = rbrace then phCount t + 1 else phCount (c2 :: t)

theorem fmtAux_eq_none_iff (t : List Char) (args : List String) :
    fmtAux t args = none ↔ args.length < phCount t := by
  induction t, args using fmtAux.induct with
  | case1 args => simp [fmtAux, phCount]
  | case2 c args => simp [fmtAux, phCount]
  | case3 c1 c2 t hph =>
    simp [fmtAux, phCount, hph]
  | case4 c1 c2 t hph a rest ih =>
    simp [fmtAux, phCount, hph, Option.map_eq_none', ih, Nat.succ_lt_succ_iff]
  | case5 c1 c2 t args hph ih =>
    simp [fmtAux, phCount, hph, Option.map_eq_none', ih]

theorem fmtAux_head (c : Char) (hc : ¬c = lbrace) (t : List Char)
    (args : List String) (l : List Char) (h : fmtAux (c :: t) args = some l) :
    ∃ l', l = c :: l' := by
  cases t with
  | nil =>
    refine ⟨[], ?_⟩
    have : some [c] = some l := h
    exact (Option.some.inj this).symm
  | cons c2 t2 =>
    have hcond : ¬(c = lbrace ∧ c2 = rbrace) := fun hh => hc hh.1
    rw [show fmtAux (c :: c2 :: t2) args =
        (fmtAux (c2 :: t2) args).map (fun r => c :: r) by simp [fmtAux, hcond]] at h
    obtain ⟨r, _, hr⟩ := Option.map_eq_some'.mp h
    exact ⟨r, hr.symm⟩

theorem raiseFormatted_unknown_ne_max (args : List String) :
    raiseFormatted UNKNOWN_PAGE_TEMPLATE args ≠
      LoginResult.authError MAX_ATTEMPTS_MSG := by
  unfold raiseFormatted
  cases hf : pyFormat UNKNOWN_PAGE_TEMPLATE args with
  | none => simp
  | some s =>
    obtain ⟨l, hl, hs⟩ := Option.map_eq_some'.mp hf
    have hdata : UNKNOWN_PAGE_TEMPLATE.data = 'A' :: UNKNOWN_PAGE_TEMPLATE.data.tail := rfl
    rw [hdata] at hl
    obtain ⟨l', rfl⟩ := fmtAux_head 'A' (by decide) _ args l hl
    simp only [ne_eq, LoginResult.authError.injEq]
    intro hcontra
    rw [← hs] at hcontra
    have h2 : ('A' :: l').head? = MAX_ATTEMPTS_MSG.data.head? := by
      rw [show ('A' :: l') = (String.mk ('A' :: l')).data from rfl, hcontra]
    rw [show MAX_ATTEMPTS_MSG.data.head? = some 'M' from rfl] at h2
    simp at h2

theorem pyFormat_client_none (a b : String) :
    pyFormat CLIENT_ERROR_TEMPLATE [a, b] = none := by
  unfold pyFormat
  rw [Option.map_eq_none', fmtAux_eq_none_iff,
    show phCount CLIENT_ERROR_TEMPLATE.data = 3 from rfl]
  simp

theorem pyFormat_server_none (a b : String) :
    pyFormat SERVER_ERROR_TEMPLATE [a, b] = none := by
  unfold pyFormat
  rw [Option.map_eq_none', fmtAux_eq_none_iff,
    show phCount SERVER_ERROR_TEMPLATE.data = 3 from rfl]
  simp

theorem raiseFormatted_ne_success (t : String) (args : List String) :
    raiseFormatted t args ≠ LoginResult.success := by
  unfold raiseFormatted
  cases pyFormat t args <;> simp

theorem classifyNoMatch_ne_success (debug : Bool) (r : Page) (res : LoginResult)
    (h : classifyNoMatch debug r = some res) : res ≠ LoginResult.success := by
  unfold classifyNoMatch at h
  split at h
  · exact Option.some.inj h ▸ raiseFormatted_ne_success _ _
  · split at h
    · exact Option.some.inj h ▸ raiseFormatted_ne_success _ _
    · split at h
      · exact Option.some.inj h ▸ raiseFormatted_ne_success _ _
      · exact Option.noConfusion h

theorem classifyNoMatch_ne_max (debug : Bool) (r : Page) (res : LoginResult)
    (h : classifyNoMatch debug r = some res) :
    res ≠ LoginResult.authError MAX_ATTEMPTS_MSG := by
  unfold classifyNoMatch at h
  split at h
  · exact Option.some.inj h ▸ raiseFormatted_unknown_ne_max _
  · split at h
    · have hr : raiseFormatted CLIENT_ERROR_TEMPLATE [r.url, debugHint debug] =
          LoginResult.formatIndexError := by
        unfold raiseFormatted
        rw [pyFormat_client_none]
      have heq := Option.some.inj h
      intro hcontra
      rw [← heq, hr] at hcontra
      exact LoginResult.noConfusion hcontra
    · split at h
      · have hr : raiseFormatted SERVER_ERROR_TEMPLATE [r.url, debugHint debug] =
            LoginResult.formatIndexError := by
          unfold raiseFormatted
          rw [pyFormat_server_none]
        have heq := Option.some.inj h
        intro hcontra
        rw [← heq, hr] at hcontra
        exact LoginResult.noConfusion hcontra
      · exact Option.noConfusion h

/-- A no-match page with a 4xx status. -/
def page404 : Page :=
  { url := "https://www.amazon.com/ap/signin"
    text := "mystery page"
    status_code := 404
    jar := [] }

/-- A no-match page with a 5xx status. -/
def page503 : Page :=
  { url := "https://www.amazon.com/ap/signin"
    text := "server error page"
    status_code := 503
    jar := [] }

set_option maxRecDepth 4000 in
/-- C1 (code bug): on a no-match iteration with a 4xx or 5xx status the
source's message templates contain three placeholders but `format` is called
with only two arguments (`url` and the debug hint — the status code is
missing), so Python raises `IndexError` while building the message and the
caller never receives the `AmazonOrdersAuthError` carrying the URL and status
code that the claim (and the template text itself) describes. The evaluation
below exhibits this on a full `login()` run against a 404 page. -/
theorem claim_C1 :
    pyFormat CLIENT_ERROR_TEMPLATE [page404.url, debugHint false] = none ∧
    pyFormat SERVER_ERROR_TEMPLATE [page503.url, debugHint false] = none ∧
    classifyNoMatch false page404 = some LoginResult.formatIndexError ∧
    classifyNoMatch false page503 = some LoginResult.formatIndexError ∧
    (login (fun _ => page404) (fun _ => false) false 10 initState).1 =
      LoginResult.formatIndexError ∧
    (login (fun _ => page503) (fun _ => false) false 10 initState).1 =
      LoginResult.formatIndexError := by
  exact ⟨rfl, rfl, rfl, rfl, rfl, rfl⟩

theorem loginPreLoop_cases (env : Nat → Page) (s : SessionState) :
    loginPreLoop env s =
      if staleSessionCond (get env SIGN_IN_URL s) then
        get env SIGN_IN_URL (logout env (get env SIGN_IN_URL s))
      else get env SIGN_IN_URL s := rfl

theorem loginPreLoop_trace_stale (env : Nat → Page) (s : SessionState)
    (h : staleSessionCond (get env SIGN_IN_URL s) = true) :
    (loginPreLoop env s).trace = s.trace ++
      [Event.httpRequest "GET" SIGN_IN_URL, Event.httpRequest "GET" SIGN_OUT_URL,
       Event.rmCookieFile, Event.replaceSession, Event.clearAuthFlag,
       Event.httpRequest "GET" SIGN_IN_URL] := by
  rw [loginPreLoop_cases, if_pos h]
  simp [get, request, logout, List.append_assoc]

theorem loginPreLoop_trace_fresh (env : Nat → Page) (s : SessionState)
    (h : staleSessionCond (get env SIGN_IN_URL s) = false) :
    (loginPreLoop env s).trace = s.trace ++ [Event.httpRequest "GET" SIGN_IN_URL] := by
  rw [loginPreLoop_cases, if_neg (by simp [h])]
  simp [get, request]

theorem loginPreLoop_flag_false (env : Nat → Page) (s : SessionState)
    (h : s.is_authenticated = false) :
    (loginPreLoop env s).is_authenticated = false := by
  rw [loginPreLoop_cases]
  split
  · rfl
  · exact h

theorem loginPreLoop_jar_last (env : Nat → Page) (s : SessionState) :
    ∃ m, (loginPreLoop env s).jar = (env m).jar ∧
      (loginPreLoop env s).lastResponse = env m := by
  rw [loginPreLoop_cases]
  split
  · exact ⟨(logout env (get env SIGN_IN_URL s)).reqCount, rfl, rfl⟩
  · exact ⟨s.reqCount, rfl, rfl⟩

theorem loginLoop_all_match (env : Nat → Page) (formMatches : Page → Bool) (debug : Bool)
    (henv : ∀ n, formMatches (env n) = true ∧ auth_cookies_stored (env n).jar = false ∧
      authenticatedMarkers (env n) = false) :
    ∀ fuel s, s.is_authenticated = false → auth_cookies_stored s.jar = false →
      authenticatedMarkers s.lastResponse = false → formMatches s.lastResponse = true →
      (loginLoop env formMatches debug fuel s).1 = LoginResult.authError MAX_ATTEMPTS_MSG ∧
      (loginLoop env formMatches debug fuel s).2.2 = fuel := by
  intro fuel
  induction fuel with
  | zero => intro s _ _ _ _; exact ⟨rfl, rfl⟩
  | succ n ih =>
    intro s h1 h2 h3 h4
    have hsub := ih (formSubmit env s) h1 ((henv s.reqCount).2.1)
      ((henv s.reqCount).2.2) ((henv s.reqCount).1)
    have hcond : (auth_cookies_stored s.jar || authenticatedMarkers s.lastResponse) = false := by
      simp [h2, h3]
    constructor
    · show (loginLoop env formMatches debug (n + 1) s).1 = _
      simp only [loginLoop, h1, hcond, h4, Bool.false_eq_true, if_false, if_true]
      exact hsub.1
    · show (loginLoop env formMatches debug (n + 1) s).2.2 = _
      simp only [loginLoop, h1, hcond, h4, Bool.false_eq_true, if_false, if_true]
      rw [hsub.2]

theorem loginLoop_max_iff (env : Nat → Page) (fm : Page → Bool) (debug : Bool) :
    ∀ fuel s,
      (loginLoop env fm debug fuel s).1 = LoginResult.authError MAX_ATTEMPTS_MSG ↔
      (loginLoop env fm debug fuel s).2.2 = fuel := by
  intro fuel
  induction fuel with
  | zero => intro s; simp [loginLoop]
  | succ n ih =>
    intro s
    cases h1 : s.is_authenticated with
    | true => simp [loginLoop, h1]
    | false =>
      cases h2 : (auth_cookies_stored s.jar || authenticatedMarkers s.lastResponse) with
      | true => simp [loginLoop, h1, h2]
      | false =>
        cases h3 : fm s.lastResponse with
        | true =>
          simp only [loginLoop, h1, h2, h3, Bool.false_eq_true, if_false, if_true]
          simpa [Nat.succ_inj] using ih (formSubmit env s)
        | false =>
          cases h4 : classifyNoMatch debug s.lastResponse with
          | some res =>
            have hne := classifyNoMatch_ne_max debug s.lastResponse res h4
            simp [loginLoop, h1, h2, h3, h4, hne]
          | none =>
            simp only [loginLoop, h1, h2, h3, h4, Bool.false_eq_true, if_false, if_true]
            simpa [Nat.succ_inj] using ih s

theorem loginLoop_flag (env : Nat → Page) (fm : Page → Bool) (debug : Bool) :
    ∀ fuel s, s.is_authenticated = false →
      ((loginLoop env fm debug fuel s).1 = LoginResult.success →
        (loginLoop env fm debug fuel s).2.1.is_authenticated = true) ∧
      ((loginLoop env fm debug fuel s).1 ≠ LoginResult.success →
        (loginLoop env fm debug fuel s).2.1.is_authenticated = false) := by
  intro fuel
  induction fuel with
  | zero =>
    intro s h
    constructor
    · intro hcontra
      exact absurd hcontra (by simp [loginLoop])
    · intro _
      exact h
  | succ n ih =>
    intro s h1
    cases h2 : (auth_cookies_stored s.jar || authenticatedMarkers s.lastResponse) with
    | true =>
      constructor
      · intro _
        simp [loginLoop, h1, h2]
      · intro hne
        exact absurd (by simp [loginLoop, h1, h2]) hne
    | false =>
      cases h3 : fm s.lastResponse with
      | true =>
        have hsub := ih (formSubmit env s) h1
        constructor
        · intro hs
          have : (loginLoop env fm debug n (formSubmit env s)).1 = LoginResult.success := by
            simp only [loginLoop, h1, h2, h3, Bool.false_eq_true, if_false, if_true] at hs
            exact hs
          have := hsub.1 this
          simp only [loginLoop, h1, h2, h3, Bool.false_eq_true, if_false, if_true]
          exact this
        · intro hs
          have : (loginLoop env fm debug n (formSubmit env s)).1 ≠ LoginResult.success := by
            simp only [loginLoop, h1, h2, h3, Bool.false_eq_true, if_false, if_true] at hs
            exact hs
          have := hsub.2 this
          simp only [loginLoop, h1, h2, h3, Bool.false_eq_true, if_false, if_true]
          exact this
      | false =>
        cases h4 : classifyNoMatch debug s.lastResponse with
        | some res =>
          have hne := classifyNoMatch_ne_success debug s.lastResponse res h4
          constructor
          · intro hs
            simp only [loginLoop, h1, h2, h3, h4, Bool.false_eq_true, if_false, if_true] at hs
            exact absurd hs hne
          · intro _
            simp only [loginLoop, h1, h2, h3, h4, Bool.false_eq_true, if_false, if_true]
        | none =>
          have hsub := ih s h1
          constructor
          · intro hs
            have : (loginLoop env fm debug n s).1 = LoginResult.success := by
              simp only [loginLoop, h1, h2, h3, h4, Bool.false_eq_true, if_false, if_true] at hs
              exact hs
            have := hsub.1 this
            simp only [loginLoop, h1, h2, h3, h4, Bool.false_eq_true, if_false, if_true]
            exact this
          · intro hs
            have : (loginLoop env fm debug n s).1 ≠ LoginResult.success := by
              simp only [loginLoop, h1, h2, h3, h4, Bool.false_eq_true, if_false, if_true] at hs
              exact hs
            have := hsub.2 this
            simp only [loginLoop, h1, h2, h3, h4, Bool.false_eq_true, if_false, if_true]
            exact this

/-- A non-matching, non-authenticated page with an HTTP success status. -/
def mysteryPage : Page :=
  { url := "https://www.amazon.com/unknown"
    text := "mystery"
    status_code := 200
    jar := [] }

/-- A page that a step handler matches but that never authenticates. -/
def matchPage : Page :=
  { url := "https://www.amazon.com/ap/signin"
    text := "signin form page"
    status_code := 200
    jar := [] }

/-- A server answering every request with `matchPage`. -/
def envMatch : Nat → Page := fun _ => matchPage

/-- A handler-set predicate matching exactly `matchPage`'s body. -/
def fmMatch : Page → Bool := fun p => p.text == "signin form page"

set_option maxRecDepth 8000 in
/-- C2, counterexample: with `max_auth_attempts = 2` and a server answering
every request with a non-matching, non-authenticated page (HTTP 200),
`login()` does **not** fail with the max-attempts error after 2 iterations —
the no-match classification aborts with the unknown-page error on the first
iteration, after 0 completed iterations. -/
theorem claim_C2_counterexample :
    (login (fun _ => mysteryPage) (fun _ => false) false 2 initState).1 ≠
      LoginResult.authError MAX_ATTEMPTS_MSG ∧
    (login (fun _ => mysteryPage) (fun _ => false) false 2 initState).2.2 = 0 ∧
    auth_cookies_stored mysteryPage.jar = false ∧
    authenticatedMarkers mysteryPage = false := by
  exact ⟨by decide, rfl, rfl, rfl⟩

/-- C2 (amended): for every `N ≥ 1`, with `max_auth_attempts = N` and a server
each of whose pages **matches a step handler** but never authenticates (no
auth cookies, no signed-in marker), `login()` fails with the max-attempts
error after exactly `N` completed loop iterations (not `N + 1`); moreover, for
every budget and state, the loop's result is the max-attempts error exactly
when the loop exits with its whole attempt budget consumed (success and the
classified aborts all exit with iterations short of the budget). -/
theorem claim_C2 (N : Nat) (_hN : 1 ≤ N) (env : Nat → Page) (formMatches : Page → Bool)
    (s : SessionState) (hflag : s.is_authenticated = false)
    (henv : ∀ n, formMatches (env n) = true ∧ auth_cookies_stored (env n).jar = false ∧
      authenticatedMarkers (env n) = false) :
    (login env formMatches false N s).1 = LoginResult.authError MAX_ATTEMPTS_MSG ∧
    (login env formMatches false N s).2.2 = N ∧
    (∀ fuel t,
      (loginLoop env formMatches false fuel t).1 = LoginResult.authError MAX_ATTEMPTS_MSG ↔
      (loginLoop env formMatches false fuel t).2.2 = fuel) := by
  obtain ⟨m, hjar, hlast⟩ := loginPreLoop_jar_last env s
  have h := loginLoop_all_match env formMatches false henv N (loginPreLoop env s)
    (loginPreLoop_flag_false env s hflag)
    (by rw [hjar]; exact (henv m).2.1)
    (by rw [hlast]; exact (henv m).2.2)
    (by rw [hlast]; exact (henv m).1)
  exact ⟨h.1, h.2, loginLoop_max_iff env formMatches false⟩

/-- Witness for C2 with `N = 2` against a constantly re-matching sign-in
page. -/
theorem claim_C2_witness :
    (login envMatch fmMatch false 2 initState).1 =
      LoginResult.authError MAX_ATTEMPTS_MSG ∧
    (login envMatch fmMatch false 2 initState).2.2 = 2 :=
  ⟨(claim_C2 2 (by decide) envMatch fmMatch initState rfl (fun _ => ⟨rfl, rfl, rfl⟩)).1,
   (claim_C2 2 (by decide) envMatch fmMatch initState rfl (fun _ => ⟨rfl, rfl, rfl⟩)).2.1⟩

/-- Response 0 of the stale-session server: cookies present and the response
URL redirected back to the sign-in page. -/
def staleAuthPage : Page :=
  { url := "https://www.amazon.com/ap/signin?openid=1"
    text := "redirected to sign in"
    status_code := 200
    jar := [("session-token", "t"), ("x-main", "m")] }

/-- Response 1 of the stale-session server (the sign-out fetch). -/
def signOutPage : Page :=
  { url := SIGN_OUT_URL
    text := "signed out"
    status_code := 200
    jar := [("session-token", "t"), ("x-main", "m")] }

/-- Response 2 of the stale-session server: a broken, non-matching 404. -/
def brokenPage : Page :=
  { url := "https://www.amazon.com/weird"
    text := "mystery"
    status_code := 404
    jar := [] }

/-- The stale-session server. -/
def envC4 : Nat → Page := fun n =>
  if n = 0 then staleAuthPage else if n = 1 then signOutPage else brokenPage

/-- An already-authenticated session holding both auth cookies. -/
def sAuth : SessionState :=
  { initState with
      is_authenticated := true
      jar := [("session-token", "t"), ("x-main", "m")] }

/-- C4, counterexample: an already-authenticated session (flag true,
`max_auth_attempts = 1`) for which `login()` does **not** terminate
successfully — the initial fetch triggers the stale-session condition, the
pre-loop logout resets `is_authenticated` to false, and the re-fetched page
fails classification. -/
theorem claim_C4_counterexample :
    sAuth.is_authenticated = true ∧
    (login envC4 (fun _ => false) false 1 sAuth).1 ≠ LoginResult.success := by
  exact ⟨rfl, by decide⟩

/-- C4 (amended): (a) on any loop iteration with budget left where the auth
cookies are stored or the body markers indicate a signed-in page, the loop
sets `is_authenticated`, returns successfully, and performs no step-handler
submission (the state is unchanged except for the flag, so the trace gains no
event); (b) a session that is already authenticated and whose initial fetch
does **not** trigger the stale-session condition terminates successfully for
any `max_auth_attempts ≥ 1` (idempotence holds only short of the pre-loop
logout, which resets the flag). -/
theorem claim_C4 :
    (∀ (env : Nat → Page) (fm : Page → Bool) (debug : Bool) (fuel : Nat) (s : SessionState),
      s.is_authenticated = false →
      (auth_cookies_stored s.jar = true ∨ authenticatedMarkers s.lastResponse = true) →
      loginLoop env fm debug (fuel + 1) s =
        (LoginResult.success, { s with is_authenticated := true }, 0)) ∧
    (∀ (env : Nat → Page) (fm : Page → Bool) (debug : Bool) (maxA : Nat) (s : SessionState),
      s.is_authenticated = true → 1 ≤ maxA →
      staleSessionCond (get env SIGN_IN_URL s) = false →
      (login env fm debug maxA s).1 = LoginResult.success ∧
      (login env fm debug maxA s).2.1 = get env SIGN_IN_URL s) := by
  constructor
  · intro env fm debug fuel s h1 h2
    have hcond : (auth_cookies_stored s.jar || authenticatedMarkers s.lastResponse) = true := by
      cases h2 with
      | inl h => simp [h]
      | inr h => simp [h]
    simp [loginLoop, h1, hcond]
  · intro env fm debug maxA s h1 hmax hstale
    obtain ⟨k, rfl⟩ : ∃ k, maxA = k + 1 :=
      ⟨maxA - 1, (Nat.succ_pred_eq_of_pos hmax).symm⟩
    unfold login
    rw [loginPreLoop_cases, if_neg (by simp [hstale])]
    have hflag : (get env SIGN_IN_URL s).is_authenticated = true := h1
    constructor
    · show (loginLoop env fm debug (k + 1) (get env SIGN_IN_URL s)).1 = _
      simp [loginLoop, hflag]
    · show (loginLoop env fm debug (k + 1) (get env SIGN_IN_URL s)).2.1 = _
      simp [loginLoop, hflag]

/-- A fresh session whose jar already stores both auth cookies. -/
def sCookies : SessionState :=
  { initState with jar := [("session-token", "t"), ("x-main", "m")] }

/-- An already-authenticated session with an empty jar. -/
def sAuthFresh : SessionState := { initState with is_authenticated := true }

/-- Witness for C4: the cookie fast-path succeeds in one peek, and a re-login
of an authenticated session with no stale redirect succeeds. -/
theorem claim_C4_witness :
    loginLoop envMatch (fun _ => false) false 1 sCookies =
      (LoginResult.success, { sCookies with is_authenticated := true }, 0) ∧
    (login (fun _ => mysteryPage) (fun _ => false) false 1 sAuthFresh).1 =
      LoginResult.success :=
  ⟨claim_C4.1 envMatch (fun _ => false) false 0 sCookies rfl (Or.inl (by decide)),
   (claim_C4.2 (fun _ => mysteryPage) (fun _ => false) false 1 sAuthFresh rfl
      (by decide) (by decide)).1⟩

/-- C5 (confirmed): before the attempt loop, when the stale-session condition
holds after the initial fetch, exactly one logout happens — a GET of the
sign-out endpoint, removal of the (just rewritten, hence present) cookie-jar
file, replacement of the transport session emptying the jar, and a reset of
`is_authenticated` — followed by exactly one re-fetch of the entry point; when
the condition does not hold, the pre-loop phase is exactly the one initial
fetch and no logout occurs. -/
theorem claim_C5 (env : Nat → Page) (s : SessionState) :
    (staleSessionCond (get env SIGN_IN_URL s) = true →
      loginPreLoop env s = get env SIGN_IN_URL (logout env (get env SIGN_IN_URL s)) ∧
      (loginPreLoop env s).trace = s.trace ++
        [Event.httpRequest "GET" SIGN_IN_URL, Event.httpRequest "GET" SIGN_OUT_URL,
         Event.rmCookieFile, Event.replaceSession, Event.clearAuthFlag,
         Event.httpRequest "GET" SIGN_IN_URL] ∧
      (logout env (get env SIGN_IN_URL s)).is_authenticated = false ∧
      (logout env (get env SIGN_IN_URL s)).cookieFile = none ∧
      (logout env (get env SIGN_IN_URL s)).jar = []) ∧
    (staleSessionCond (get env SIGN_IN_URL s) = false →
      loginPreLoop env s = get env SIGN_IN_URL s ∧
      (loginPreLoop env s).trace = s.trace ++ [Event.httpRequest "GET" SIGN_IN_URL]) := by
  constructor
  · intro h
    refine ⟨by rw [loginPreLoop_cases, if_pos h], loginPreLoop_trace_stale env s h,
      rfl, ?_, rfl⟩
    show (logout env (get env SIGN_IN_URL s)).cookieFile = none
    simp [logout, get, request]
  · intro h
    exact ⟨by rw [loginPreLoop_cases, if_neg (by simp [h])],
      loginPreLoop_trace_fresh env s h⟩

/-- Witness for C5: the stale branch on the concrete stale server, the fresh
branch on a cookie-less server. -/
theorem claim_C5_witness :
    (loginPreLoop envC4 sAuth).trace = sAuth.trace ++
      [Event.httpRequest "GET" SIGN_IN_URL, Event.httpRequest "GET" SIGN_OUT_URL,
       Event.rmCookieFile, Event.replaceSession, Event.clearAuthFlag,
       Event.httpRequest "GET" SIGN_IN_URL] ∧
    (loginPreLoop (fun _ => mysteryPage) initState).trace =
      initState.trace ++ [Event.httpRequest "GET" SIGN_IN_URL] :=
  ⟨((claim_C5 envC4 sAuth).1 (by decide)).2.1,
   ((claim_C5 (fun _ => mysteryPage) initState).2 (by decide)).2⟩

/-- C9 (confirmed): on a session whose `is_authenticated` flag starts false,
`login()` returns normally only with the flag set true, and every erroring
termination (classified abort, format `IndexError`, or max-attempts) leaves
the flag false. -/
theorem claim_C9 (env : Nat → Page) (fm : Page → Bool) (debug : Bool) (maxA : Nat)
    (s : SessionState) (h : s.is_authenticated = false) :
    ((login env fm debug maxA s).1 = LoginResult.success →
      (login env fm debug maxA s).2.1.is_authenticated = true) ∧
    ((login env fm debug maxA s).1 ≠ LoginResult.success →
      (login env fm debug maxA s).2.1.is_authenticated = false) := by
  unfold login
  exact loginLoop_flag env fm debug maxA (loginPreLoop env s)
    (loginPreLoop_flag_false env s h)

/-- A page carrying the signed-in marker and not the signed-out one. -/
def signedInPage : Page :=
  { url := "https://www.amazon.com/gp/css/order-history"
    text := "account nav-item-signout orders"
    status_code := 200
    jar := [] }

/-- Witness for C9 on a successful run and on a failing run. -/
theorem claim_C9_witness :
    (login (fun _ => signedInPage) (fun _ => false) false 3 initState).2.1.is_authenticated
        = true ∧
    (login (fun _ => brokenPage) (fun _ => false) false 3 initState).2.1.is_authenticated
        = false :=
  ⟨(claim_C9 (fun _ => signedInPage) (fun _ => false) false 3 initState rfl).1 rfl,
   (claim_C9 (fun _ => brokenPage) (fun _ => false) false 3 initState rfl).2 (by decide)⟩

/-- C10 (confirmed): with `max_auth_attempts = 0` the attempt loop cannot run,
so after fetching the sign-in entry point `login()` always raises the
max-attempts error — for every server, handler set, and starting state,
including states with auth cookies present or `is_authenticated` already true
— because the authenticated fast-path check only exists inside the loop. -/
theorem claim_C10 (env : Nat → Page) (fm : Page → Bool) (debug : Bool) (s : SessionState) :
    (login env fm debug 0 s).1 = LoginResult.authError MAX_ATTEMPTS_MSG ∧
    (login env fm debug 0 s).2.2 = 0 ∧
    (∃ t, (login env fm debug 0 s).2.1.trace =
      s.trace ++ Event.httpRequest "GET" SIGN_IN_URL :: t) := by
  refine ⟨rfl, rfl, ?_⟩
  show ∃ t, (loginPreLoop env s).trace = _
  cases hc : staleSessionCond (get env SIGN_IN_URL s) with
  | true =>
    refine ⟨[Event.httpRequest "GET" SIGN_OUT_URL, Event.rmCookieFile,
      Event.replaceSession, Event.clearAuthFlag, Event.httpRequest "GET" SIGN_IN_URL], ?_⟩
    rw [loginPreLoop_trace_stale env s hc]
  | false =>
    exact ⟨[], loginPreLoop_trace_fresh env s hc⟩

end AmazonOrders
